import Mathlib

/-!
Verification of the logging-with-fallback pipeline of this repository.

The definitions below are a shallow embedding of the TypeScript source:
the log data model (severity enum, record, builder), the configuration
factory, the HTTP remote provider (with its rxjs retry pipeline over a
single eagerly created axios Promise), the file-based local provider
(directory creation plus newline-delimited JSON append), and the
orchestrating service with its remote-then-local fallback.  External
effects (HTTP outcomes, filesystem failures, wall-clock time, environment
variables) are passed in explicitly as oracle parameters, and each run
records the observable trace (number of sink invocations, file contents,
request options) so the theorems can speak about behaviour, not just
return values.
-/

/-- JSON values, modelling the payload type `Record<string, any>` of the
source (arbitrary scalar or structured values). -/
inductive JsonVal where
  | str (s : String)
  | num (n : Int)
  | boolean (b : Bool)
  | null
  | arr (elems : List JsonVal)
  | obj (fields : List (String × JsonVal))

/-- Payloads attached to a log record: a string-keyed JSON object body. -/
abbrev Payload := List (String × JsonVal)

/-- Decimal digit characters, used by the number renderer. -/
def digitChar : Nat → Char
  | 0 => '0'
  | 1 => '1'
  | 2 => '2'
  | 3 => '3'
  | 4 => '4'
  | 5 => '5'
  | 6 => '6'
  | 7 => '7'
  | 8 => '8'
  | _ => '9'

/-- Accumulator-style decimal rendering loop for a natural number, with a
fuel bound on the number of digits produced. -/
def natReprLoop : Nat → Nat → List Char → List Char
  | 0, _, acc => acc
  | fuel + 1, n, acc =>
    let acc1 := digitChar (n % 10) :: acc
    if n < 10 then acc1 else natReprLoop fuel (n / 10) acc1

/-- Decimal rendering of a natural number. -/
def natRepr (n : Nat) : String := String.mk (natReprLoop (n + 1) n [])

/-- Decimal rendering of an integer. -/
def intRepr (n : Int) : String :=
  if n < 0 then "-" ++ natRepr n.natAbs else natRepr n.natAbs

/-- String-escaping of a single character, modelling the escaping performed
by JSON.stringify for the characters relevant here. -/
def escChar (c : Char) : String :=
  if c = '"' then "\\\""
  else if c = '\\' then "\\\\"
  else if c = '\n' then "\\n"
  else if c = '\r' then "\\r"
  else if c = '\t' then "\\t"
  else String.singleton c

/-- Concatenation of a list of strings. -/
def strJoin : List String → String
  | [] => ""
  | s :: rest => s ++ strJoin rest

/-- JSON string escaping, character by character. -/
def escapeString (s : String) : String := strJoin (s.toList.map escChar)

/-- A JSON string literal: escaped content between double quotes. -/
def jsonQuote (s : String) : String := "\"" ++ escapeString s ++ "\""

mutual

/-- Serialization of a JSON value, modelling JSON.stringify. -/
def serializeJson : JsonVal → String
  | .str s => jsonQuote s
  | .num n => intRepr n
  | .boolean b => if b then "true" else "false"
  | .null => "null"
  | .arr es => "[" ++ serializeJsonList es ++ "]"
  | .obj fs => "\x7b" ++ serializeJsonFields fs ++ "\x7d"

/-- Serialization of the comma-separated elements of a JSON array. -/
def serializeJsonList : List JsonVal → String
  | [] => ""
  | [v] => serializeJson v
  | v :: rest => serializeJson v ++ "," ++ serializeJsonList rest

/-- Serialization of the comma-separated fields of a JSON object. -/
def serializeJsonFields : List (String × JsonVal) → String
  | [] => ""
  | [(k, v)] => jsonQuote k ++ ":" ++ serializeJson v
  | (k, v) :: rest => jsonQuote k ++ ":" ++ serializeJson v ++ "," ++ serializeJsonFields rest

end

/-- Number of newline characters in a string; the fallback file gains
exactly one line per append when the appended entry has count zero. -/
def countNL (s : String) : Nat := s.toList.count '\n'

/-- Errors as thrown by the JavaScript code: a message plus an optional
cause (the source always constructs errors without a cause). -/
inductive JsError where
  | mk (message : String) (cause : Option JsError)

/-- The message carried by an error. -/
def JsError.message : JsError → String
  | .mk m _ => m

/-- The chain of causes reachable from an error (the error itself excluded). -/
def causeChain : JsError → List JsError
  | .mk _ none => []
  | .mk _ (some c) => c :: causeChain c

/-- Whether a fallible computation succeeded. -/
def exceptOk {ε α : Type} : Except ε α → Bool
  | .ok _ => true
  | .error _ => false

/-- Severity levels available for logs, from the LogSeverity string enum. -/
inductive LogSeverity where
  | INFO
  | WARN
  | ERROR
  | DEBUG
deriving DecidableEq

/-- String value of a severity, as in the LogSeverity string enum where
each member maps to its own name. -/
def severityString : LogSeverity → String
  | .INFO => "INFO"
  | .WARN => "WARN"
  | .ERROR => "ERROR"
  | .DEBUG => "DEBUG"

/-- Member access on the LogSeverity string enum by a runtime string, as in
the indexing expression used by sendLog: the four member names map to the
corresponding member, anything else is undefined. -/
def parseLogSeverity : String → Option LogSeverity
  | "INFO" => some .INFO
  | "WARN" => some .WARN
  | "ERROR" => some .ERROR
  | "DEBUG" => some .DEBUG
  | _ => none

/-- The LogData record assembled per log call.  The timestamp is the value
of new Date() at construction, modelled as milliseconds since the epoch. -/
structure LogData where
  severity : LogSeverity
  message : String
  data : Payload
  timestamp : Nat
  source : String

/-- Modelled abstraction of the toISOString method of Date: an injective
rendering of the epoch-milliseconds timestamp.  No claim inspects the
concrete text of the ISO-8601 string; the theorems only track that the
timestamp field is serialized through this rendering. -/
def toISOString (ms : Nat) : String := natRepr ms

/-- Serialization of a LogData record as performed by formatLogEntry:
JSON.stringify of the record with the timestamp replaced in place by its
ISO rendering, fields in the insertion order of the build result
(severity, message, data, timestamp, source). -/
def serializeLogData (l : LogData) : String :=
  "\x7b" ++ jsonQuote "severity" ++ ":" ++ jsonQuote (severityString l.severity)
    ++ "," ++ jsonQuote "message" ++ ":" ++ jsonQuote l.message
    ++ "," ++ jsonQuote "data" ++ ":" ++ serializeJson (.obj l.data)
    ++ "," ++ jsonQuote "timestamp" ++ ":" ++ jsonQuote (toISOString l.timestamp)
    ++ "," ++ jsonQuote "source" ++ ":" ++ jsonQuote l.source
    ++ "\x7d"

/-- The logging configuration record. -/
structure LoggingConfig where
  logServiceUrl : String
  isDevEnvironment : Bool
  serviceName : String
  maxRetries : Nat
deriving DecidableEq

/-- JavaScript truthiness fallback on an optional string, modelling both
an or-default expression (the empty string is falsy) and the undefined
case. -/
def jsOrStr (v : Option String) (d : String) : String :=
  match v with
  | some s => if s = "" then d else s
  | none => d

/-- Environment as read by the ConfigService.get calls of the
configuration factory, where the default applies only when the variable
is undefined. -/
structure ConfigEnv where
  LOG_SERVICE_URL : Option String
  APP_DEV : Option String
  SERVICE_NAME : Option String
  LOG_MAX_RETRIES : Option Nat
deriving DecidableEq

/-- The createLoggingConfig method of ConfigurationFactory: each field is
read through ConfigService.get with its default. -/
def ConfigurationFactory.createLoggingConfig (env : ConfigEnv) : LoggingConfig :=
  { logServiceUrl := (env.LOG_SERVICE_URL).getD "http://localhost:3000"
    isDevEnvironment := (env.APP_DEV).getD "false" == "true"
    serviceName := (env.SERVICE_NAME).getD "module-service"
    maxRetries := (env.LOG_MAX_RETRIES).getD 3 }

/-- Process environment as read directly by the getConfig method of
HttpRemoteLogProvider via process.env. -/
structure ProcessEnv where
  LOG_SERVICE_URL : Option String
  APP_DEV : Option String
deriving DecidableEq

/-- The private getConfig method of HttpRemoteLogProvider: it builds its
own configuration from process.env with an or-default on the URL (JS
truthiness), a literal retry count of 3, a strict string comparison for
the dev flag, and a literal service name. -/
def HttpRemoteLogProvider.getConfig (penv : ProcessEnv) : LoggingConfig :=
  { logServiceUrl := jsOrStr penv.LOG_SERVICE_URL "http://localhost:3000"
    maxRetries := 3
    isDevEnvironment := penv.APP_DEV == some "true"
    serviceName := "module-service" }

/-- An rxjs Observable over Except outcomes: subscription number i yields
the outcome emitted to the subscriber with that index. -/
abbrev Obs := Nat → Except String Unit

/-- The Observable produced by wrapping a settled Promise with the rxjs
from function: every subscription replays the same settled outcome,
because a Promise runs once and caches its result. -/
def fromPromise (p : Except String Unit) : Obs := fun _ => p

/-- One run of the rxjs retry operator with the given remaining retry
budget, subscribed at index i: a successful emission is passed through,
an error consumes one retry by resubscribing at the next index, and an
error with no budget left is propagated. -/
def retryGo (source : Obs) : Nat → Nat → Except String Unit
  | 0, i => source i
  | fuel + 1, i =>
    match source i with
    | .ok u => .ok u
    | .error _ => retryGo source fuel (i + 1)

/-- The rxjs retry operator: the initial subscription plus at most n
resubscriptions on error. -/
def retryObs (n : Nat) (source : Obs) : Except String Unit := retryGo source n 0

/-- Observable trace of one call to the sendLog method of
HttpRemoteLogProvider: its outcome, the number of HTTP requests actually
issued, and the request options passed to axios.post. -/
structure SendLogRun where
  result : Except JsError Unit
  httpAttempts : Nat
  requestUrl : String
  requestTimeoutMs : Nat
  requestContentType : String

/-- The sendLog method of HttpRemoteLogProvider.  The oracle
attemptOutcome gives the outcome the remote collector would return to the
k-th HTTP request if it were issued.  In the source, axios.post is
evaluated eagerly, once, before being wrapped by the rxjs from function;
the retry operator then resubscribes to the Observable of that single
already-settled Promise, which replays the same outcome instead of
issuing a new request.  Exactly one HTTP request is therefore issued per
call, with the fixed 5000 ms timeout and JSON content type from the axios
options.  A pipeline error is wrapped by catchError and wrapped again by
the outer catch block, each time into a fresh Error without a cause. -/
def HttpRemoteLogProvider.sendLog (penv : ProcessEnv) (attemptOutcome : Obs) :
    SendLogRun :=
  let config := HttpRemoteLogProvider.getConfig penv
  let promise : Except String Unit := attemptOutcome 1
  let piped : Except JsError Unit :=
    match retryObs config.maxRetries (fromPromise promise) with
    | .ok u => .ok u
    | .error m => .error (JsError.mk ("Error enviando log remoto: " ++ m) none)
  let result : Except JsError Unit :=
    match piped with
    | .ok u => .ok u
    | .error e => .error (JsError.mk ("Fallo al enviar log remoto: " ++ e.message) none)
  { result := result
    httpAttempts := 1
    requestUrl := config.logServiceUrl
    requestTimeoutMs := 5000
    requestContentType := "application/json" }

/-- Name of the fixed fallback file used by FileLocalLogProvider. -/
def logFileName : String := "fallback-logs.json"

/-- Name of the log directory under the working directory. -/
def logDirectoryName : String := "logs"

/-- Path of the fallback file: the logs directory under the working
directory joined with the fixed file name. -/
def logFilePath (cwd : String) : String :=
  cwd ++ "/" ++ logDirectoryName ++ "/" ++ logFileName

/-- State of the filesystem as far as FileLocalLogProvider observes it:
whether the log directory exists and the content of the fallback file. -/
structure FsState where
  dirExists : Bool
  fileContent : String
deriving DecidableEq

/-- Failure injection for the filesystem calls: the message the mkdir or
appendFile call would fail with, or none when the call succeeds. -/
structure FsBehavior where
  mkdirError : Option String
  appendError : Option String
deriving DecidableEq

/-- The private ensureLogDirectoryExists method: the access call succeeds
exactly when the directory exists; otherwise mkdir with the recursive
option is attempted. -/
def ensureLogDirectoryExists (fb : FsBehavior) (s : FsState) :
    Except String FsState :=
  if s.dirExists then .ok s
  else
    match fb.mkdirError with
    | some m => .error m
    | none => .ok { s with dirExists := true }

/-- The private formatLogEntry method: JSON.stringify of the record with
the timestamp replaced by its ISO rendering, terminated by a newline. -/
def formatLogEntry (l : LogData) : String := serializeLogData l ++ "\n"

/-- The saveLog method of FileLocalLogProvider: ensure the directory,
then append one formatted entry to the fallback file; any failure is
caught and rethrown as a fresh Error with the fixed message prefix. -/
def FileLocalLogProvider.saveLog (fb : FsBehavior) (s : FsState) (l : LogData) :
    Except JsError FsState :=
  match ensureLogDirectoryExists fb s with
  | .error m => .error (JsError.mk ("No se pudo guardar el log localmente: " ++ m) none)
  | .ok s1 =>
    match fb.appendError with
    | some m => .error (JsError.mk ("No se pudo guardar el log localmente: " ++ m) none)
    | none => .ok { s1 with fileContent := s1.fileContent ++ formatLogEntry l }

/-- Partially assembled LogData held by LogDataBuilder: every field starts
out undefined and is set by the fluent with-methods. -/
structure LogDataBuilder where
  severity : Option LogSeverity := none
  message : Option String := none
  data : Option Payload := none
  source : Option String := none

/-- The static create method of LogDataBuilder. -/
def LogDataBuilder.create : LogDataBuilder := {}

/-- The withSeverity method. -/
def LogDataBuilder.withSeverity (b : LogDataBuilder) (s : LogSeverity) :
    LogDataBuilder := { b with severity := some s }

/-- The withMessage method. -/
def LogDataBuilder.withMessage (b : LogDataBuilder) (m : String) :
    LogDataBuilder := { b with message := some m }

/-- The withData method. -/
def LogDataBuilder.withData (b : LogDataBuilder) (d : Payload) :
    LogDataBuilder := { b with data := some d }

/-- The withSource method. -/
def LogDataBuilder.withSource (b : LogDataBuilder) (s : String) :
    LogDataBuilder := { b with source := some s }

/-- Fixed message of the validation error thrown by the build method. -/
def buildErrorMessage : String := "Severity y message son campos obligatorios"

/-- The build method of LogDataBuilder, at construction instant now: it
throws when severity or message is falsy (undefined severity, undefined or
empty message — enum values are nonempty strings, hence truthy), and
otherwise assembles the record, defaulting data to the empty object (every
object is truthy, so only an undefined data field is replaced) and source
to the string unknown via JS truthiness (an empty source string is also
replaced). -/
def LogDataBuilder.build (b : LogDataBuilder) (now : Nat) :
    Except JsError LogData :=
  match b.severity, b.message with
  | some sev, some msg =>
    if msg = "" then .error (JsError.mk buildErrorMessage none)
    else
      .ok { severity := sev
            message := msg
            data := (b.data).getD []
            timestamp := now
            source := jsOrStr b.source "unknown" }
  | _, _ => .error (JsError.mk buildErrorMessage none)

/-- The private buildSourceName method of LoggingService: the configured
service name, suffixed when the configuration says dev environment. -/
def LoggingService.buildSourceName (cfg : LoggingConfig) : String :=
  cfg.serviceName ++ (if cfg.isDevEnvironment then "_dev" else "")

/-- The record-assembly step at the top of processLog: the builder chain
with severity, message, defaulted data and the configuration-derived
source, finished by build. -/
def LoggingService.assembleRecord (cfg : LoggingConfig) (severity : LogSeverity)
    (message : String) (data : Option Payload) (now : Nat) :
    Except JsError LogData :=
  ((((LogDataBuilder.create.withSeverity severity).withMessage
      message).withData (data.getD [])).withSource
      (LoggingService.buildSourceName cfg)).build now

/-- Fixed message of the fatal error thrown when both sinks fail. -/
def unavailableMessage : String := "Sistema de logging no disponible"

/-- Observable trace of one call into the logging service: the outcome,
the filesystem state afterwards, and how many times each sink was
invoked. -/
structure ProcessOutcome where
  result : Except JsError Unit
  fs : FsState
  remoteCalls : Nat
  localCalls : Nat

/-- The private processLog method of LoggingService: assemble the record
(letting a validation error propagate before any sink is touched), then
try the remote provider, falling back to the local provider on failure,
and throwing a fresh cause-less Error with the fixed unavailable message
when the local provider fails too.  The remote and local providers are
the injected collaborators, passed here as oracles; the filesystem state
is threaded through the local provider. -/
def LoggingService.processLog (cfg : LoggingConfig)
    (remote : LogData → Except JsError Unit)
    (localSave : FsState → LogData → Except JsError FsState)
    (s : FsState) (severity : LogSeverity) (message : String)
    (data : Option Payload) (now : Nat) : ProcessOutcome :=
  match LoggingService.assembleRecord cfg severity message data now with
  | .error e => { result := .error e, fs := s, remoteCalls := 0, localCalls := 0 }
  | .ok logData =>
    match remote logData with
    | .ok _ => { result := .ok (), fs := s, remoteCalls := 1, localCalls := 0 }
    | .error _ =>
      match localSave s logData with
      | .ok s1 => { result := .ok (), fs := s1, remoteCalls := 1, localCalls := 1 }
      | .error _ =>
        { result := .error (JsError.mk unavailableMessage none)
          fs := s, remoteCalls := 1, localCalls := 1 }

/-- Message of the error thrown by sendLog for an unrecognized type. -/
def invalidTypeMessage (type : String) : String :=
  "Tipo de log inválido: " ++ type ++ ". Tipos válidos: INFO, ERROR, WARN, DEBUG"

/-- The public sendLog method of LoggingService: convert the type string
through the LogSeverity enum, throw on an unrecognized (falsy lookup)
type before any further processing, and otherwise run processLog. -/
def LoggingService.sendLog (cfg : LoggingConfig)
    (remote : LogData → Except JsError Unit)
    (localSave : FsState → LogData → Except JsError FsState)
    (s : FsState) (message : String) (type : String)
    (data : Option Payload) (now : Nat) : ProcessOutcome :=
  match parseLogSeverity type with
  | none =>
    { result := .error (JsError.mk (invalidTypeMessage type) none)
      fs := s, remoteCalls := 0, localCalls := 0 }
  | some severity =>
    LoggingService.processLog cfg remote localSave s severity message data now

/-- The pipeline as wired by LoggingModule: the service configured by the
injected ConfigurationFactory over cfgEnv, the remote provider reading
process.env directly, and the file-based local provider. -/
def runSubmit (cfgEnv : ConfigEnv) (penv : ProcessEnv) (attemptOutcome : Obs)
    (fb : FsBehavior) (s : FsState) (message : String) (type : String)
    (data : Option Payload) (now : Nat) : ProcessOutcome :=
  LoggingService.sendLog (ConfigurationFactory.createLoggingConfig cfgEnv)
    (fun _ => (HttpRemoteLogProvider.sendLog penv attemptOutcome).result)
    (fun st ld => FileLocalLogProvider.saveLog fb st ld)
    s message type data now

/-! Helper lemmas about the retry pipeline and the serializer. -/

/-- Retrying a constant source yields the outcome of the single settled
value: resubscription to an already-settled Promise replays its result. -/
theorem retryGo_const (p : Except String Unit) :
    ∀ fuel i, retryGo (fun _ => p) fuel i = p
  | 0, _ => rfl
  | fuel + 1, i => by
    cases hp : p with
    | ok u => simp [retryGo, hp]
    | error e => simpa [retryGo, hp] using retryGo_const p fuel (i + 1)

/-- The outcome of the remote sendLog method is the wrapped outcome of
the single HTTP request actually issued. -/
theorem sendLog_result (penv : ProcessEnv) (attemptOutcome : Obs) :
    (HttpRemoteLogProvider.sendLog penv attemptOutcome).result =
      match attemptOutcome 1 with
      | .ok u => .ok u
      | .error m =>
        .error (JsError.mk
          ("Fallo al enviar log remoto: " ++ "Error enviando log remoto: " ++ m) none) := by
  simp only [HttpRemoteLogProvider.sendLog, retryObs, fromPromise, retryGo_const]
  cases attemptOutcome 1 <;> rfl

/-- Newline count distributes over string append. -/
theorem countNL_append (a b : String) : countNL (a ++ b) = countNL a + countNL b := by
  simp [countNL, String.toList, String.data_append, List.count_append]

/-- A singleton string of a non-newline character has no newline. -/
theorem countNL_singleton (c : Char) (h : c ≠ '\n') :
    countNL (String.singleton c) = 0 := by
  simp [countNL, String.toList, String.singleton, List.count_cons, h]

/-- Escaped characters contain no newline. -/
theorem countNL_escChar (c : Char) : countNL (escChar c) = 0 := by
  unfold escChar
  split
  · rfl
  · split
    · rfl
    · split
      · rfl
      · split
        · rfl
        · split
          · rfl
          · next h1 h2 h3 h4 h5 => exact countNL_singleton c h3

/-- Joining newline-free strings yields a newline-free string. -/
theorem countNL_strJoin :
    ∀ xs : List String, (∀ s ∈ xs, countNL s = 0) → countNL (strJoin xs) = 0
  | [], _ => rfl
  | s :: rest, h => by
    have hs : countNL s = 0 := h s (List.mem_cons_self s rest)
    have hr : countNL (strJoin rest) = 0 :=
      countNL_strJoin rest (fun t ht => h t (List.mem_cons_of_mem s ht))
    simp [strJoin, countNL_append, hs, hr]

/-- Escaped strings contain no newline. -/
theorem countNL_escapeString (s : String) : countNL (escapeString s) = 0 := by
  apply countNL_strJoin
  intro t ht
  rcases List.mem_map.mp ht with ⟨c, _, rfl⟩
  exact countNL_escChar c

/-- Quoted JSON string literals contain no newline. -/
theorem countNL_jsonQuote (s : String) : countNL (jsonQuote s) = 0 := by
  simp [jsonQuote, countNL_append, countNL_escapeString]
  rfl

/-- Digit characters are not the newline character. -/
theorem digitChar_ne_nl (d : Nat) : digitChar d ≠ '\n' := by
  unfold digitChar
  split <;> decide

/-- Every character produced by the decimal rendering loop is a digit or
comes from the accumulator. -/
theorem natReprLoop_chars :
    ∀ fuel n acc, (∀ c ∈ acc, c ≠ '\n') → ∀ c ∈ natReprLoop fuel n acc, c ≠ '\n'
  | 0, _, acc, h => h
  | fuel + 1, n, acc, h => by
    intro c hc
    unfold natReprLoop at hc
    by_cases hn : n < 10
    · simp only [if_pos hn] at hc
      rcases List.mem_cons.mp hc with rfl | hmem
      · exact digitChar_ne_nl (n % 10)
      · exact h c hmem
    · simp only [if_neg hn] at hc
      refine natReprLoop_chars fuel (n / 10) (digitChar (n % 10) :: acc) ?_ c hc
      intro d hd
      rcases List.mem_cons.mp hd with rfl | hmem
      · exact digitChar_ne_nl (n % 10)
      · exact h d hmem

/-- Decimal renderings contain no newline. -/
theorem countNL_natRepr (n : Nat) : countNL (natRepr n) = 0 := by
  apply List.count_eq_zero.mpr
  intro hmem
  exact natReprLoop_chars (n + 1) n [] (by intro c hc; cases hc) '\n' hmem rfl

/-- Integer renderings contain no newline. -/
theorem countNL_intRepr (n : Int) : countNL (intRepr n) = 0 := by
  unfold intRepr
  split
  · simp [countNL_append, countNL_natRepr]
    rfl
  · exact countNL_natRepr n.natAbs

mutual

/-- Serialized JSON values contain no newline. -/
theorem countNL_serializeJson : ∀ v : JsonVal, countNL (serializeJson v) = 0
  | .str s => by simp [serializeJson, countNL_jsonQuote]
  | .num n => by simp [serializeJson, countNL_intRepr]
  | .boolean b => by cases b <;> rfl
  | .null => rfl
  | .arr es => by
    simp [serializeJson, countNL_append, countNL_serializeJsonList es]
    decide
  | .obj fs => by
    simp [serializeJson, countNL_append, countNL_serializeJsonFields fs]
    decide

/-- Serialized JSON array bodies contain no newline. -/
theorem countNL_serializeJsonList : ∀ vs : List JsonVal, countNL (serializeJsonList vs) = 0
  | [] => rfl
  | [v] => by simpa [serializeJsonList] using countNL_serializeJson v
  | v :: w :: rest => by
    simp [serializeJsonList, countNL_append, countNL_serializeJson v,
      countNL_serializeJsonList (w :: rest)]
    rfl

/-- Serialized JSON object bodies contain no newline. -/
theorem countNL_serializeJsonFields :
    ∀ fs : List (String × JsonVal), countNL (serializeJsonFields fs) = 0
  | [] => rfl
  | [(k, v)] => by
    simp [serializeJsonFields, countNL_append, countNL_jsonQuote,
      countNL_serializeJson v]
    decide
  | (k, v) :: p :: rest => by
    simp [serializeJsonFields, countNL_append, countNL_jsonQuote,
      countNL_serializeJson v, countNL_serializeJsonFields (p :: rest)]
    decide

end

/-- A serialized log record contains no newline: appending a formatted
entry adds exactly one line to the fallback file. -/
theorem countNL_serializeLogData (l : LogData) : countNL (serializeLogData l) = 0 := by
  simp [serializeLogData, countNL_append, countNL_jsonQuote,
    countNL_serializeJson (JsonVal.obj l.data), toISOString, countNL_natRepr]
  decide

/-- The record that processLog assembles for a nonempty message: the
caller data defaulted to the empty object and the configuration-derived
source, defaulted through JS truthiness. -/
def assembledRecord (cfg : LoggingConfig) (sev : LogSeverity) (msg : String)
    (data : Option Payload) (now : Nat) : LogData :=
  { severity := sev, message := msg, data := data.getD [], timestamp := now
    source := jsOrStr (some (LoggingService.buildSourceName cfg)) "unknown" }

/-- Closed form of the record-assembly step: it fails exactly on an empty
message (severity is always supplied by processLog), and otherwise yields
the assembled record. -/
theorem assembleRecord_eq (cfg : LoggingConfig) (sev : LogSeverity) (msg : String)
    (data : Option Payload) (now : Nat) :
    LoggingService.assembleRecord cfg sev msg data now =
      if msg = "" then .error (JsError.mk buildErrorMessage none)
      else .ok (assembledRecord cfg sev msg data now) := by
  unfold LoggingService.assembleRecord LogDataBuilder.build LogDataBuilder.create
    LogDataBuilder.withSeverity LogDataBuilder.withMessage LogDataBuilder.withData
    LogDataBuilder.withSource assembledRecord
  simp

/-- A recognized type string reduces the public sendLog method to the
internal processLog method. -/
theorem sendLog_valid_type (cfg : LoggingConfig)
    (remote : LogData → Except JsError Unit)
    (localSave : FsState → LogData → Except JsError FsState)
    (s : FsState) (msg type : String) (data : Option Payload) (now : Nat)
    (sev : LogSeverity) (hsev : parseLogSeverity type = some sev) :
    LoggingService.sendLog cfg remote localSave s msg type data now =
      LoggingService.processLog cfg remote localSave s sev msg data now := by
  unfold LoggingService.sendLog
  rw [hsev]

/-- With a nonempty message, processLog reduces to the remote attempt on
the assembled record followed by the local fallback. -/
theorem processLog_valid (cfg : LoggingConfig)
    (remote : LogData → Except JsError Unit)
    (localSave : FsState → LogData → Except JsError FsState)
    (s : FsState) (sev : LogSeverity) (msg : String)
    (data : Option Payload) (now : Nat) (hmsg : msg ≠ "") :
    LoggingService.processLog cfg remote localSave s sev msg data now =
      match remote (assembledRecord cfg sev msg data now) with
      | .ok _ => { result := .ok (), fs := s, remoteCalls := 1, localCalls := 0 }
      | .error _ =>
        match localSave s (assembledRecord cfg sev msg data now) with
        | .ok s1 => { result := .ok (), fs := s1, remoteCalls := 1, localCalls := 1 }
        | .error _ =>
          { result := .error (JsError.mk unavailableMessage none)
            fs := s, remoteCalls := 1, localCalls := 1 } := by
  unfold LoggingService.processLog
  rw [assembleRecord_eq, if_neg hmsg]

/-- With an empty message, processLog stops at record assembly. -/
theorem processLog_empty (cfg : LoggingConfig)
    (remote : LogData → Except JsError Unit)
    (localSave : FsState → LogData → Except JsError FsState)
    (s : FsState) (sev : LogSeverity) (data : Option Payload) (now : Nat) :
    LoggingService.processLog cfg remote localSave s sev "" data now =
      { result := .error (JsError.mk buildErrorMessage none)
        fs := s, remoteCalls := 0, localCalls := 0 } := by
  unfold LoggingService.processLog
  rw [assembleRecord_eq, if_pos rfl]

/-- Normalized form of the fallback file path. -/
theorem logFilePath_eq (cwd : String) :
    logFilePath cwd = cwd ++ "/logs/fallback-logs.json" := by
  unfold logFilePath logDirectoryName logFileName
  rw [String.append_assoc, String.append_assoc, String.append_assoc]
  have h : ("/" ++ ("logs" ++ ("/" ++ "fallback-logs.json")) : String) =
      "/logs/fallback-logs.json" := rfl
  rw [h]

/-- The invalid-type message is never the unavailable message, whatever
the offending type string (their lengths differ). -/
theorem invalidTypeMessage_ne (type : String) :
    invalidTypeMessage type ≠ unavailableMessage := by
  intro h
  have hlen := congrArg String.length h
  unfold invalidTypeMessage unavailableMessage at hlen
  rw [String.length_append, String.length_append] at hlen
  have h1 : ("Tipo de log inválido: ").length = 22 := rfl
  have h2 : (". Tipos válidos: INFO, ERROR, WARN, DEBUG").length = 41 := rfl
  have h3 : ("Sistema de logging no disponible").length = 32 := rfl
  omega

/-- The builder validation message differs from the unavailable message. -/
theorem buildErrorMessage_ne : buildErrorMessage ≠ unavailableMessage := by decide

/-- When no filesystem call fails, saveLog appends exactly one formatted
entry and leaves the directory in place. -/
theorem saveLog_success (fb : FsBehavior) (s : FsState) (l : LogData)
    (hmkdir : fb.mkdirError = none) (happend : fb.appendError = none) :
    FileLocalLogProvider.saveLog fb s l =
      .ok { dirExists := true, fileContent := s.fileContent ++ formatLogEntry l } := by
  unfold FileLocalLogProvider.saveLog ensureLogDirectoryExists
  rw [hmkdir, happend]
  by_cases hd : s.dirExists <;> simp [hd]

/-! Claim theorems. -/

/-- C3: for every record, if the remote send succeeds, submit completes
successfully without ever invoking the save operation of the Local
Provider, and the filesystem is untouched. -/
theorem c3_remote_success_skips_local (cfg : LoggingConfig)
    (remote : LogData → Except JsError Unit)
    (localSave : FsState → LogData → Except JsError FsState)
    (s : FsState) (msg type : String) (data : Option Payload) (now : Nat)
    (sev : LogSeverity)
    (hsev : parseLogSeverity type = some sev) (hmsg : msg ≠ "")
    (hremote : ∀ l, remote l = .ok ()) :
    (LoggingService.sendLog cfg remote localSave s msg type data now).result = .ok () ∧
    (LoggingService.sendLog cfg remote localSave s msg type data now).localCalls = 0 ∧
    (LoggingService.sendLog cfg remote localSave s msg type data now).fs = s := by
  rw [sendLog_valid_type cfg remote localSave s msg type data now sev hsev,
    processLog_valid cfg remote localSave s sev msg data now hmsg,
    hremote (assembledRecord cfg sev msg data now)]
  exact ⟨rfl, rfl, rfl⟩

/-- Witness for C3 at a concrete run. -/
theorem c3_remote_success_skips_local_witness :
    (LoggingService.sendLog ⟨"http://localhost:3000", false, "module-service", 3⟩
        (fun _ => .ok ()) (fun st _ => .ok st) ⟨false, ""⟩
        "hello" "INFO" none 5).result = .ok () ∧
    (LoggingService.sendLog ⟨"http://localhost:3000", false, "module-service", 3⟩
        (fun _ => .ok ()) (fun st _ => .ok st) ⟨false, ""⟩
        "hello" "INFO" none 5).localCalls = 0 ∧
    (LoggingService.sendLog ⟨"http://localhost:3000", false, "module-service", 3⟩
        (fun _ => .ok ()) (fun st _ => .ok st) ⟨false, ""⟩
        "hello" "INFO" none 5).fs = ⟨false, ""⟩ :=
  c3_remote_success_skips_local ⟨"http://localhost:3000", false, "module-service", 3⟩
    (fun _ => .ok ()) (fun st _ => .ok st) ⟨false, ""⟩
    "hello" "INFO" none 5 .INFO rfl (by decide) (fun _ => rfl)

/-- C6: the pipeline rejects a log call before any sink is reached exactly
when the message is empty or the severity type is unrecognized, and for
every valid pair the record assembly succeeds. -/
theorem c6_validation (cfg : LoggingConfig)
    (remote : LogData → Except JsError Unit)
    (localSave : FsState → LogData → Except JsError FsState)
    (s : FsState) (msg type : String) (data : Option Payload) (now : Nat) :
    ((exceptOk (LoggingService.sendLog cfg remote localSave s msg type data now).result = false ∧
      (LoggingService.sendLog cfg remote localSave s msg type data now).remoteCalls = 0)
        ↔ (parseLogSeverity type = none ∨ msg = "")) ∧
    (∀ sev, parseLogSeverity type = some sev → msg ≠ "" →
      exceptOk (LoggingService.assembleRecord cfg sev msg data now) = true) := by
  constructor
  · cases hty : parseLogSeverity type with
    | none =>
      unfold LoggingService.sendLog
      rw [hty]
      simp [exceptOk]
    | some sev =>
      rw [sendLog_valid_type cfg remote localSave s msg type data now sev hty]
      by_cases hmsg : msg = ""
      · subst hmsg
        rw [processLog_empty]
        simp [exceptOk]
      · rw [processLog_valid cfg remote localSave s sev msg data now hmsg]
        cases hr : remote (assembledRecord cfg sev msg data now) with
        | ok u => simp [exceptOk, hmsg]
        | error e =>
          cases hl : localSave s (assembledRecord cfg sev msg data now) <;>
            simp [exceptOk, hmsg]
  · intro sev hsev hmsg
    rw [assembleRecord_eq, if_neg hmsg]
    rfl

/-- Witness for C6 at a concrete run. -/
theorem c6_validation_witness :
    (((exceptOk (LoggingService.sendLog ⟨"u", false, "svc", 3⟩ (fun _ => .ok ())
        (fun st _ => .ok st) ⟨true, ""⟩ "" "INFO" none 0).result = false ∧
      (LoggingService.sendLog ⟨"u", false, "svc", 3⟩ (fun _ => .ok ())
        (fun st _ => .ok st) ⟨true, ""⟩ "" "INFO" none 0).remoteCalls = 0)
        ↔ (parseLogSeverity "INFO" = none ∨ "" = "")) ∧
      (∀ sev, parseLogSeverity "INFO" = some sev → ("" : String) ≠ "" →
        exceptOk (LoggingService.assembleRecord ⟨"u", false, "svc", 3⟩ sev "" none 0) = true)) ∧
    (∀ sev, parseLogSeverity "INFO" = some sev → ("hi" : String) ≠ "" →
      exceptOk (LoggingService.assembleRecord ⟨"u", false, "svc", 3⟩ sev "hi" none 0) = true) :=
  ⟨c6_validation ⟨"u", false, "svc", 3⟩ (fun _ => .ok ()) (fun st _ => .ok st)
      ⟨true, ""⟩ "" "INFO" none 0,
    (c6_validation ⟨"u", false, "svc", 3⟩ (fun _ => .ok ()) (fun st _ => .ok st)
      ⟨true, ""⟩ "hi" "INFO" none 0).2⟩

/-- C7: for every valid pair, build yields a record whose timestamp is the
construction instant and whose payload defaults to the empty object when
the data step is omitted. -/
theorem c7_build_defaults (sev : LogSeverity) (msg : String) (now : Nat)
    (hmsg : msg ≠ "") :
    ((LogDataBuilder.create.withSeverity sev).withMessage msg).build now =
      .ok { severity := sev, message := msg, data := [], timestamp := now
            source := "unknown" } := by
  unfold LogDataBuilder.build LogDataBuilder.create LogDataBuilder.withSeverity
    LogDataBuilder.withMessage
  simp [hmsg, jsOrStr]

/-- Witness for C7 at a concrete run. -/
theorem c7_build_defaults_witness :
    ((LogDataBuilder.create.withSeverity .ERROR).withMessage "disk full").build 42 =
      .ok { severity := .ERROR, message := "disk full", data := [], timestamp := 42
            source := "unknown" } :=
  c7_build_defaults .ERROR "disk full" 42 (by decide)

/-- C8: an invalid construction input (unrecognized severity type or empty
message) is rejected before any sink call: neither provider is invoked,
the filesystem is untouched, and the call fails. -/
theorem c8_invalid_no_io (cfg : LoggingConfig)
    (remote : LogData → Except JsError Unit)
    (localSave : FsState → LogData → Except JsError FsState)
    (s : FsState) (msg type : String) (data : Option Payload) (now : Nat)
    (hbad : parseLogSeverity type = none ∨ msg = "") :
    (LoggingService.sendLog cfg remote localSave s msg type data now).remoteCalls = 0 ∧
    (LoggingService.sendLog cfg remote localSave s msg type data now).localCalls = 0 ∧
    (LoggingService.sendLog cfg remote localSave s msg type data now).fs = s ∧
    exceptOk (LoggingService.sendLog cfg remote localSave s msg type data now).result = false := by
  cases hty : parseLogSeverity type with
  | none =>
    unfold LoggingService.sendLog
    rw [hty]
    exact ⟨rfl, rfl, rfl, rfl⟩
  | some sev =>
    cases hbad with
    | inl h => rw [hty] at h; cases h
    | inr h =>
      subst h
      rw [sendLog_valid_type cfg remote localSave s "" type data now sev hty,
        processLog_empty]
      exact ⟨rfl, rfl, rfl, rfl⟩

/-- Witness for C8 at a concrete run. -/
theorem c8_invalid_no_io_witness :
    (LoggingService.sendLog ⟨"u", false, "svc", 3⟩ (fun _ => .ok ())
        (fun st _ => .ok st) ⟨true, "old"⟩ "hi" "FATAL" none 0).remoteCalls = 0 ∧
    (LoggingService.sendLog ⟨"u", false, "svc", 3⟩ (fun _ => .ok ())
        (fun st _ => .ok st) ⟨true, "old"⟩ "hi" "FATAL" none 0).localCalls = 0 ∧
    (LoggingService.sendLog ⟨"u", false, "svc", 3⟩ (fun _ => .ok ())
        (fun st _ => .ok st) ⟨true, "old"⟩ "hi" "FATAL" none 0).fs = ⟨true, "old"⟩ ∧
    exceptOk (LoggingService.sendLog ⟨"u", false, "svc", 3⟩ (fun _ => .ok ())
        (fun st _ => .ok st) ⟨true, "old"⟩ "hi" "FATAL" none 0).result = false :=
  c8_invalid_no_io ⟨"u", false, "svc", 3⟩ (fun _ => .ok ()) (fun st _ => .ok st)
    ⟨true, "old"⟩ "hi" "FATAL" none 0 (Or.inl rfl)

/-- C1: the remote provider issues no more than the policy bound of HTTP
attempts per submission (it in fact issues exactly one, because the rxjs
retry operator resubscribes to the Observable of a single settled axios
Promise); when the collector would fail every one of the first maxAttempts
requests, the orchestrator falls back to the local provider without ever
issuing request maxAttempts plus one, whatever outcome that request would
have had. -/
theorem c1_bounded_attempts (penv : ProcessEnv) (attemptOutcome : Obs)
    (cfgEnv : ConfigEnv) (fb : FsBehavior) (s : FsState) (msg type : String)
    (data : Option Payload) (now : Nat) (sev : LogSeverity) (N : Nat)
    (hN : 1 ≤ N)
    (hfail : ∀ k, 1 ≤ k → k ≤ N → exceptOk (attemptOutcome k) = false)
    (hsev : parseLogSeverity type = some sev) (hmsg : msg ≠ "") :
    (HttpRemoteLogProvider.sendLog penv attemptOutcome).httpAttempts ≤ N ∧
    (HttpRemoteLogProvider.sendLog penv attemptOutcome).httpAttempts < N + 1 ∧
    (runSubmit cfgEnv penv attemptOutcome fb s msg type data now).localCalls = 1 := by
  have hattempts : (HttpRemoteLogProvider.sendLog penv attemptOutcome).httpAttempts = 1 := rfl
  refine ⟨by omega, by omega, ?_⟩
  have h1 : exceptOk (attemptOutcome 1) = false := hfail 1 le_rfl hN
  unfold runSubmit
  rw [sendLog_valid_type _ _ _ _ _ _ _ _ _ hsev,
    processLog_valid _ _ _ _ _ _ _ _ hmsg]
  cases hao : attemptOutcome 1 with
  | ok u => rw [hao] at h1; exact absurd h1 (by simp [exceptOk])
  | error m =>
    have hres : (HttpRemoteLogProvider.sendLog penv attemptOutcome).result =
        .error (JsError.mk
          ("Fallo al enviar log remoto: " ++ "Error enviando log remoto: " ++ m) none) := by
      rw [sendLog_result, hao]
    simp only [hres]
    cases hsave : FileLocalLogProvider.saveLog fb s
        (assembledRecord (ConfigurationFactory.createLoggingConfig cfgEnv) sev msg data now) <;>
      rfl

/-- Witness for C1: the collector refuses the first three requests and
would accept the fourth, yet the run falls back to the local sink. -/
theorem c1_bounded_attempts_witness :
    exceptOk ((fun k => if k ≤ 3 then Except.error "ECONNREFUSED" else Except.ok ()) 4) = true ∧
    (HttpRemoteLogProvider.sendLog ⟨none, none⟩
        (fun k => if k ≤ 3 then Except.error "ECONNREFUSED" else Except.ok ())).httpAttempts ≤ 3 ∧
    (HttpRemoteLogProvider.sendLog ⟨none, none⟩
        (fun k => if k ≤ 3 then Except.error "ECONNREFUSED" else Except.ok ())).httpAttempts < 3 + 1 ∧
    (runSubmit ⟨none, none, none, none⟩ ⟨none, none⟩
        (fun k => if k ≤ 3 then Except.error "ECONNREFUSED" else Except.ok ())
        ⟨none, none⟩ ⟨false, ""⟩ "disk full" "ERROR" none 0).localCalls = 1 := by
  have h := c1_bounded_attempts ⟨none, none⟩
    (fun k => if k ≤ 3 then Except.error "ECONNREFUSED" else Except.ok ())
    ⟨none, none, none, none⟩ ⟨none, none⟩ ⟨false, ""⟩ "disk full" "ERROR" none 0
    .ERROR 3 (by decide)
    (fun k h1 h2 => by simp [h2, exceptOk]) rfl (by decide)
  exact ⟨rfl, h.1, h.2.1, h.2.2⟩

/-- C2 counterexample: with a remote failure and a local failure the raised
error is the fixed cause-less Error, whose cause chain is empty and so
includes neither underlying failure, contrary to the claim. -/
theorem c2_counterexample :
    (LoggingService.sendLog ⟨"u", false, "svc", 3⟩
        (fun _ => .error (JsError.mk "remote boom" none))
        (fun _ _ => .error (JsError.mk "local boom" none))
        ⟨true, ""⟩ "disk full" "ERROR" none 0).result =
      .error (JsError.mk unavailableMessage none) ∧
    causeChain (JsError.mk unavailableMessage none) = [] ∧
    unavailableMessage ≠ "remote boom" ∧ unavailableMessage ≠ "local boom" :=
  ⟨rfl, rfl, by decide, by decide⟩

/-- C2 (amended): submit raises the fixed both-sinks-failed error, carrying
no cause information, exactly when the input is valid and both the remote
send and the subsequent local save fail. -/
theorem c2_unavailable_iff (cfg : LoggingConfig)
    (remote : LogData → Except JsError Unit)
    (localSave : FsState → LogData → Except JsError FsState)
    (s : FsState) (msg type : String) (data : Option Payload) (now : Nat) :
    (LoggingService.sendLog cfg remote localSave s msg type data now).result =
        .error (JsError.mk unavailableMessage none) ↔
      (∃ sev, parseLogSeverity type = some sev ∧ msg ≠ "" ∧
        exceptOk (remote (assembledRecord cfg sev msg data now)) = false ∧
        exceptOk (localSave s (assembledRecord cfg sev msg data now)) = false) := by
  cases hty : parseLogSeverity type with
  | none =>
    unfold LoggingService.sendLog
    rw [hty]
    constructor
    · intro h
      simp only [Except.error.injEq, JsError.mk.injEq] at h
      exact absurd h.1 (invalidTypeMessage_ne type)
    · rintro ⟨sev, hsev, -⟩
      exact Option.noConfusion hsev
  | some sev0 =>
    rw [sendLog_valid_type _ _ _ _ _ _ _ _ _ hty]
    by_cases hmsg : msg = ""
    · subst hmsg
      rw [processLog_empty]
      constructor
      · intro h
        simp only [Except.error.injEq, JsError.mk.injEq] at h
        exact absurd h.1 buildErrorMessage_ne
      · rintro ⟨sev, hsev, hmsg2, -⟩
        exact absurd rfl hmsg2
    · rw [processLog_valid _ _ _ _ _ _ _ _ hmsg]
      cases hr : remote (assembledRecord cfg sev0 msg data now) with
      | ok u =>
        constructor
        · intro h
          exact Except.noConfusion h
        · rintro ⟨sev, hsev, hmsg2, hrem, hloc⟩
          injection hsev with hs
          subst hs
          rw [hr] at hrem
          exact Bool.noConfusion hrem
      | error e =>
        cases hl : localSave s (assembledRecord cfg sev0 msg data now) with
        | ok s1 =>
          constructor
          · intro h
            exact Except.noConfusion h
          · rintro ⟨sev, hsev, hmsg2, hrem, hloc⟩
            injection hsev with hs
            subst hs
            rw [hl] at hloc
            exact Bool.noConfusion hloc
        | error e2 =>
          constructor
          · intro _
            exact ⟨sev0, rfl, hmsg, by rw [hr]; rfl, by rw [hl]; rfl⟩
          · intro _
            rfl

/-- C4: when every remote send fails and the filesystem cooperates, submit
completes without raising and the fallback file gains exactly one new
line, equal to the serialized form of the submitted record (the serialized
entry itself contains no newline). -/
theorem c4_fallback_appends_one_line (cfg : LoggingConfig)
    (remote : LogData → Except JsError Unit) (fb : FsBehavior) (s : FsState)
    (msg type : String) (data : Option Payload) (now : Nat) (sev : LogSeverity)
    (hsev : parseLogSeverity type = some sev) (hmsg : msg ≠ "")
    (hremote : ∀ l, exceptOk (remote l) = false)
    (hmkdir : fb.mkdirError = none) (happend : fb.appendError = none) :
    (LoggingService.sendLog cfg remote (fun st l => FileLocalLogProvider.saveLog fb st l)
        s msg type data now).result = .ok () ∧
    (LoggingService.sendLog cfg remote (fun st l => FileLocalLogProvider.saveLog fb st l)
        s msg type data now).localCalls = 1 ∧
    (LoggingService.sendLog cfg remote (fun st l => FileLocalLogProvider.saveLog fb st l)
        s msg type data now).fs.fileContent =
      s.fileContent ++ formatLogEntry (assembledRecord cfg sev msg data now) ∧
    formatLogEntry (assembledRecord cfg sev msg data now) =
      serializeLogData (assembledRecord cfg sev msg data now) ++ "\n" ∧
    countNL (serializeLogData (assembledRecord cfg sev msg data now)) = 0 := by
  rw [sendLog_valid_type _ _ _ _ _ _ _ _ _ hsev,
    processLog_valid _ _ _ _ _ _ _ _ hmsg]
  cases hr : remote (assembledRecord cfg sev msg data now) with
  | ok u =>
    have := hremote (assembledRecord cfg sev msg data now)
    rw [hr] at this
    exact absurd this (by simp [exceptOk])
  | error e =>
    rw [saveLog_success fb s (assembledRecord cfg sev msg data now) hmkdir happend]
    exact ⟨rfl, rfl, rfl, rfl, countNL_serializeLogData _⟩

/-- Witness for C4 at a concrete run. -/
theorem c4_fallback_appends_one_line_witness :
    (LoggingService.sendLog ⟨"u", false, "svc", 3⟩
        (fun _ => .error (JsError.mk "ECONNREFUSED" none))
        (fun st l => FileLocalLogProvider.saveLog ⟨none, none⟩ st l)
        ⟨false, ""⟩ "disk full" "ERROR" none 7).result = .ok () ∧
    (LoggingService.sendLog ⟨"u", false, "svc", 3⟩
        (fun _ => .error (JsError.mk "ECONNREFUSED" none))
        (fun st l => FileLocalLogProvider.saveLog ⟨none, none⟩ st l)
        ⟨false, ""⟩ "disk full" "ERROR" none 7).localCalls = 1 ∧
    (LoggingService.sendLog ⟨"u", false, "svc", 3⟩
        (fun _ => .error (JsError.mk "ECONNREFUSED" none))
        (fun st l => FileLocalLogProvider.saveLog ⟨none, none⟩ st l)
        ⟨false, ""⟩ "disk full" "ERROR" none 7).fs.fileContent =
      (FsState.mk false "").fileContent ++
        formatLogEntry (assembledRecord ⟨"u", false, "svc", 3⟩ .ERROR "disk full" none 7) ∧
    formatLogEntry (assembledRecord ⟨"u", false, "svc", 3⟩ .ERROR "disk full" none 7) =
      serializeLogData (assembledRecord ⟨"u", false, "svc", 3⟩ .ERROR "disk full" none 7) ++ "\n" ∧
    countNL (serializeLogData (assembledRecord ⟨"u", false, "svc", 3⟩ .ERROR "disk full" none 7)) = 0 :=
  c4_fallback_appends_one_line ⟨"u", false, "svc", 3⟩
    (fun _ => .error (JsError.mk "ECONNREFUSED" none)) ⟨none, none⟩ ⟨false, ""⟩
    "disk full" "ERROR" none 7 .ERROR rfl (by decide) (fun _ => rfl) rfl rfl

/-- C5: the local provider first ensures the log directory (creating it
when missing), then appends exactly one newline-terminated serialized
entry (timestamp rendered through the ISO serialization) to the fixed
fallback file, and fails with the wrapped local-persistence error when
directory creation or the write fails. -/
theorem c5_local_provider (fb : FsBehavior) (s : FsState) (l : LogData) (cwd : String) :
    (fb.mkdirError = none → fb.appendError = none →
      FileLocalLogProvider.saveLog fb s l =
        .ok { dirExists := true, fileContent := s.fileContent ++ formatLogEntry l }) ∧
    formatLogEntry l = serializeLogData l ++ "\n" ∧
    countNL (serializeLogData l) = 0 ∧
    logFileName = "fallback-logs.json" ∧
    logFilePath cwd = cwd ++ "/logs/fallback-logs.json" ∧
    (∀ m, s.dirExists = false → fb.mkdirError = some m →
      FileLocalLogProvider.saveLog fb s l =
        .error (JsError.mk ("No se pudo guardar el log localmente: " ++ m) none)) ∧
    (∀ m, fb.mkdirError = none → fb.appendError = some m →
      FileLocalLogProvider.saveLog fb s l =
        .error (JsError.mk ("No se pudo guardar el log localmente: " ++ m) none)) := by
  refine ⟨fun hmk hap => saveLog_success fb s l hmk hap, rfl,
    countNL_serializeLogData l, rfl, logFilePath_eq cwd, ?_, ?_⟩
  · intro m hdir hmk
    unfold FileLocalLogProvider.saveLog ensureLogDirectoryExists
    rw [hdir, hmk]
    rfl
  · intro m hmk hap
    unfold FileLocalLogProvider.saveLog ensureLogDirectoryExists
    rw [hmk, hap]
    by_cases hd : s.dirExists <;> simp [hd]

/-- Witness for C5 at a concrete run. -/
theorem c5_local_provider_witness :
    FileLocalLogProvider.saveLog ⟨none, none⟩ ⟨false, ""⟩
        ⟨.ERROR, "disk full", [], 7, "svc"⟩ =
      .ok { dirExists := true
            fileContent := ("" : String) ++
              formatLogEntry ⟨.ERROR, "disk full", [], 7, "svc"⟩ } ∧
    FileLocalLogProvider.saveLog ⟨some "EACCES", none⟩ ⟨false, ""⟩
        ⟨.ERROR, "disk full", [], 7, "svc"⟩ =
      .error (JsError.mk ("No se pudo guardar el log localmente: " ++ "EACCES") none) ∧
    FileLocalLogProvider.saveLog ⟨none, some "ENOSPC"⟩ ⟨true, ""⟩
        ⟨.ERROR, "disk full", [], 7, "svc"⟩ =
      .error (JsError.mk ("No se pudo guardar el log localmente: " ++ "ENOSPC") none) ∧
    countNL (serializeLogData ⟨.ERROR, "disk full", [], 7, "svc"⟩) = 0 :=
  ⟨(c5_local_provider ⟨none, none⟩ ⟨false, ""⟩ ⟨.ERROR, "disk full", [], 7, "svc"⟩ "/app").1
      rfl rfl,
    (c5_local_provider ⟨some "EACCES", none⟩ ⟨false, ""⟩
      ⟨.ERROR, "disk full", [], 7, "svc"⟩ "/app").2.2.2.2.2.1 "EACCES" rfl rfl,
    (c5_local_provider ⟨none, some "ENOSPC"⟩ ⟨true, ""⟩
      ⟨.ERROR, "disk full", [], 7, "svc"⟩ "/app").2.2.2.2.2.2 "ENOSPC" rfl rfl,
    (c5_local_provider ⟨none, none⟩ ⟨true, ""⟩
      ⟨.ERROR, "disk full", [], 7, "svc"⟩ "/app").2.2.1⟩

/-- C9 counterexample: with the SERVICE_NAME environment variable set to
the empty string and no dev mode, the configured service name is the empty
string and the derived source name is empty too, so the builder replaces
it with the string unknown: the assembled source does not equal the bare
configured service name, contrary to the claim. -/
theorem c9_counterexample :
    (ConfigurationFactory.createLoggingConfig ⟨none, none, some "", none⟩).serviceName = "" ∧
    (ConfigurationFactory.createLoggingConfig ⟨none, none, some "", none⟩).isDevEnvironment
      = false ∧
    LoggingService.assembleRecord
        (ConfigurationFactory.createLoggingConfig ⟨none, none, some "", none⟩)
        .INFO "hello" none 0 =
      .ok { severity := .INFO, message := "hello", data := [], timestamp := 0
            source := "unknown" } ∧
    ("unknown" : String) ≠ "" :=
  ⟨rfl, rfl, rfl, by decide⟩

/-- C9 (amended): the source field of every assembled record is derived
from configuration only — the configured service name with the dev suffix
appended exactly in dev mode — except that when that derived name is the
empty string (empty configured service name outside dev mode) the builder
default unknown is used instead. -/
theorem c9_source_from_config (env : ConfigEnv) (sev : LogSeverity) (msg : String)
    (data : Option Payload) (now : Nat) (hmsg : msg ≠ "") :
    LoggingService.assembleRecord (ConfigurationFactory.createLoggingConfig env)
        sev msg data now =
      .ok (assembledRecord (ConfigurationFactory.createLoggingConfig env) sev msg data now) ∧
    (assembledRecord (ConfigurationFactory.createLoggingConfig env) sev msg data now).source =
      jsOrStr (some (LoggingService.buildSourceName
        (ConfigurationFactory.createLoggingConfig env))) "unknown" ∧
    LoggingService.buildSourceName (ConfigurationFactory.createLoggingConfig env) =
      (ConfigurationFactory.createLoggingConfig env).serviceName ++
        (if (ConfigurationFactory.createLoggingConfig env).isDevEnvironment
          then "_dev" else "") := by
  refine ⟨?_, rfl, rfl⟩
  rw [assembleRecord_eq, if_neg hmsg]

/-- Witness for C9 (amended) at a concrete run. -/
theorem c9_source_from_config_witness :
    LoggingService.assembleRecord
        (ConfigurationFactory.createLoggingConfig ⟨none, some "true", some "svc", none⟩)
        .INFO "hi" none 3 =
      .ok (assembledRecord
        (ConfigurationFactory.createLoggingConfig ⟨none, some "true", some "svc", none⟩)
        .INFO "hi" none 3) ∧
    (assembledRecord
        (ConfigurationFactory.createLoggingConfig ⟨none, some "true", some "svc", none⟩)
        .INFO "hi" none 3).source =
      jsOrStr (some (LoggingService.buildSourceName
        (ConfigurationFactory.createLoggingConfig ⟨none, some "true", some "svc", none⟩)))
        "unknown" ∧
    LoggingService.buildSourceName
        (ConfigurationFactory.createLoggingConfig ⟨none, some "true", some "svc", none⟩) =
      (ConfigurationFactory.createLoggingConfig
          ⟨none, some "true", some "svc", none⟩).serviceName ++
        (if (ConfigurationFactory.createLoggingConfig
            ⟨none, some "true", some "svc", none⟩).isDevEnvironment
          then "_dev" else "") :=
  c9_source_from_config ⟨none, some "true", some "svc", none⟩ .INFO "hi" none 3 (by decide)

/-- C10: the HTTP remote provider ignores the injected configuration: its
private getConfig builds a policy with a literal retry count of 3 and an
endpoint read from process.env with the localhost default, the axios call
uses the fixed 5000 ms timeout, and two injected configurations differing
only in LOG_SERVICE_URL and LOG_MAX_RETRIES produce identical submission
outcomes. -/
theorem c10_provider_ignores_injected_config (penv : ProcessEnv) (attemptOutcome : Obs)
    (e1 e2 : ConfigEnv) (fb : FsBehavior) (s : FsState) (msg type : String)
    (data : Option Payload) (now : Nat)
    (hdev : e1.APP_DEV = e2.APP_DEV) (hname : e1.SERVICE_NAME = e2.SERVICE_NAME) :
    (HttpRemoteLogProvider.getConfig penv).maxRetries = 3 ∧
    (HttpRemoteLogProvider.getConfig penv).logServiceUrl =
      jsOrStr penv.LOG_SERVICE_URL "http://localhost:3000" ∧
    (HttpRemoteLogProvider.sendLog penv attemptOutcome).requestTimeoutMs = 5000 ∧
    (HttpRemoteLogProvider.sendLog penv attemptOutcome).requestContentType =
      "application/json" ∧
    runSubmit e1 penv attemptOutcome fb s msg type data now =
      runSubmit e2 penv attemptOutcome fb s msg type data now := by
  refine ⟨rfl, rfl, rfl, rfl, ?_⟩
  have hsrc : LoggingService.buildSourceName (ConfigurationFactory.createLoggingConfig e1) =
      LoggingService.buildSourceName (ConfigurationFactory.createLoggingConfig e2) := by
    unfold LoggingService.buildSourceName ConfigurationFactory.createLoggingConfig
    rw [hdev, hname]
  unfold runSubmit
  cases hty : parseLogSeverity type with
  | none =>
    unfold LoggingService.sendLog
    rw [hty]
  | some sev =>
    rw [sendLog_valid_type _ _ _ _ _ _ _ _ _ hty,
      sendLog_valid_type _ _ _ _ _ _ _ _ _ hty]
    by_cases hmsg : msg = ""
    · subst hmsg
      rw [processLog_empty, processLog_empty]
    · rw [processLog_valid _ _ _ _ _ _ _ _ hmsg,
        processLog_valid _ _ _ _ _ _ _ _ hmsg]
      unfold assembledRecord
      rw [hsrc]

/-- Witness for C10: two injected configurations with different endpoints
and retry bounds yield the same submission outcome. -/
theorem c10_provider_ignores_injected_config_witness :
    (HttpRemoteLogProvider.getConfig ⟨none, none⟩).maxRetries = 3 ∧
    (HttpRemoteLogProvider.getConfig ⟨none, none⟩).logServiceUrl =
      jsOrStr (ProcessEnv.mk none none).LOG_SERVICE_URL "http://localhost:3000" ∧
    (HttpRemoteLogProvider.sendLog ⟨none, none⟩
        (fun _ => Except.error "ECONNREFUSED")).requestTimeoutMs = 5000 ∧
    (HttpRemoteLogProvider.sendLog ⟨none, none⟩
        (fun _ => Except.error "ECONNREFUSED")).requestContentType = "application/json" ∧
    runSubmit ⟨some "http://collector-a:9000", none, none, some 9⟩ ⟨none, none⟩
        (fun _ => Except.error "ECONNREFUSED") ⟨none, none⟩ ⟨false, ""⟩
        "hi" "INFO" none 0 =
      runSubmit ⟨some "http://collector-b:1", none, none, some 0⟩ ⟨none, none⟩
        (fun _ => Except.error "ECONNREFUSED") ⟨none, none⟩ ⟨false, ""⟩
        "hi" "INFO" none 0 :=
  c10_provider_ignores_injected_config ⟨none, none⟩ (fun _ => Except.error "ECONNREFUSED")
    ⟨some "http://collector-a:9000", none, none, some 9⟩
    ⟨some "http://collector-b:1", none, none, some 0⟩
    ⟨none, none⟩ ⟨false, ""⟩ "hi" "INFO" none 0 rfl rfl

/-- Witness for C2 (amended) at a concrete both-sinks-failed run. -/
theorem c2_unavailable_iff_witness :
    (LoggingService.sendLog ⟨"u", false, "svc", 3⟩
        (fun _ => .error (JsError.mk "remote down" none))
        (fun _ _ => .error (JsError.mk "disk broken" none))
        ⟨true, ""⟩ "payload lost" "WARN" none 11).result =
      .error (JsError.mk unavailableMessage none) :=
  (c2_unavailable_iff ⟨"u", false, "svc", 3⟩
      (fun _ => .error (JsError.mk "remote down" none))
      (fun _ _ => .error (JsError.mk "disk broken" none))
      ⟨true, ""⟩ "payload lost" "WARN" none 11).mpr
    ⟨.WARN, rfl, by decide, rfl, rfl⟩
